import Mathlib

/-!
# Verification of the ipsc_t2t pipeline scripts

Shallow embedding of the two driver scripts
`src/imprinting/1_run_batch_alignment.py` and
`src/imprinting/2_paf_liftover.py`, together with proofs of the
documented properties.

Conventions of the embedding:
* A text line is a `List Char` (so Python string primitives such as
  `split`, `startswith` and `strip` are modelled as structural
  recursion over characters, faithful to CPython semantics).
* The filesystem is a partial map from path to file content
  (`String → Option (List (List Char))`, content as a list of lines).
* Python exceptions are the error side of `Except PyError`;
  `try/except` blocks are `match` on that result.
* External subprocesses are parametrised by an outcome value: the
  scripts only observe success, a non-zero exit
  (`subprocess.CalledProcessError`), or a missing binary
  (`FileNotFoundError`), plus whatever files the subprocess leaves
  behind, which the model takes as inputs.
-/

namespace IpscT2T

/-- Python exception classes observed by the scripts. -/
inductive PyError where
  | fileNotFoundError
  | calledProcessError
  | keyError
  deriving DecidableEq, Repr

/-! ## Python string primitives (CPython semantics, on `List Char`) -/

/-- CPython `str.isspace`-style whitespace set used by `str.strip()`:
space, tab, newline, carriage return, vertical tab, form feed. -/
def pyIsSpace (c : Char) : Bool :=
  c = ' ' || c = '\t' || c = '\n' || c = '\r' || c = '\x0b' || c = '\x0c'

/-- Truthiness of `line.strip()` in Python: `True` iff the line has at
least one non-whitespace character. -/
def stripTruthy (line : List Char) : Bool :=
  line.any (fun c => !pyIsSpace c)

/-- `line.startswith("#")`. -/
def startsHash (line : List Char) : Bool :=
  match line with
  | [] => false
  | c :: _ => c = '#'

/-- `line.split('\t')`: split on every tab, keeping empty fields, so a
line with `n` tabs yields `n + 1` fields and `"".split('\t') == [""]`. -/
def splitTab : List Char → List (List Char)
  | [] => [[]]
  | c :: rest =>
    if c = '\t' then
      [] :: splitTab rest
    else
      match splitTab rest with
      | [] => [[c]]
      | f :: fs => (c :: f) :: fs

/-! ## The chain-record filter of `run_paf2liftover`
(`2_paf_liftover.py` lines 25-30) -/

/-- The line predicate of the filtering loop in `run_paf2liftover`:
`if not line.startswith("#") and line.strip():` followed by
`if len(line.split('\t')) == 13: outfile.write(line)`. -/
def keepLine (line : List Char) : Bool :=
  if !startsHash line && stripTruthy line then
    if (splitTab line).length = 13 then true else false
  else
    false

/-- The whole filtering pass: the lines of the temporary converter
output that are copied to the final chain file, in order. -/
def filterChain (file : List (List Char)) : List (List Char) :=
  file.filter keepLine

theorem splitTab_ne_nil (line : List Char) : splitTab line ≠ [] := by
  induction line with
  | nil => simp [splitTab]
  | cons c rest ih =>
    simp only [splitTab]
    by_cases hc : c = '\t'
    · simp [hc]
    · simp only [hc, if_neg]
      cases h : splitTab rest with
      | nil => exact absurd h ih
      | cons f fs => simp

theorem mem_filterChain (file : List (List Char)) (line : List Char) :
    line ∈ filterChain file ↔ line ∈ file ∧ keepLine line = true := by
  simp [filterChain, List.mem_filter]

theorem keepLine_eq_true_iff (line : List Char) :
    keepLine line = true ↔
      startsHash line = false ∧ stripTruthy line = true ∧
        (splitTab line).length = 13 := by
  unfold keepLine
  cases h1 : startsHash line <;> cases h2 : stripTruthy line <;>
    simp [h1, h2]

/-- C1, counterexample: the line consisting of twelve tab characters
splits on tab into exactly 13 fields and does not start with `#`, yet
the filtering pass of `run_paf2liftover` does not write it to the final
chain file (because `line.strip()` is falsy), refuting the claim that
every 13-field non-comment line is always written. -/
theorem chain_filter_counterexample :
    (splitTab "\t\t\t\t\t\t\t\t\t\t\t\t".data).length = 13 ∧
      startsHash "\t\t\t\t\t\t\t\t\t\t\t\t".data = false ∧
      filterChain ["\t\t\t\t\t\t\t\t\t\t\t\t".data] = [] := by
  decide

/-- C1 (amended): in the chain-filtering pass of `run_paf2liftover`, a
line with 12 tab-separated fields, or one starting with `#`, or a blank
line (no non-whitespace character), is never written to the final chain
file; and a non-blank line with exactly 13 tab-separated fields and no
comment prefix is always written. -/
theorem chain_filter_amended (file : List (List Char)) (line : List Char) :
    (((splitTab line).length = 12 ∨ startsHash line = true ∨
        stripTruthy line = false) → line ∉ filterChain file) ∧
    (line ∈ file → (splitTab line).length = 13 → startsHash line = false →
      stripTruthy line = true → line ∈ filterChain file) := by
  constructor
  · intro h hmem
    rw [mem_filterChain, keepLine_eq_true_iff] at hmem
    rcases hmem with ⟨-, hh, hs, h13⟩
    rcases h with h | h | h <;> simp_all
  · intro hmem h13 hh hs
    rw [mem_filterChain, keepLine_eq_true_iff]
    exact ⟨hmem, hh, hs, h13⟩

/-- Witness for the amended C1 theorem at concrete lines: a comment
line is dropped, and a well-formed 13-field line is kept. -/
theorem chain_filter_amended_witness :
    "#comment".data ∉ filterChain ["#comment".data] ∧
    "a\tb\tc\td\te\tf\tg\th\ti\tj\tk\tl\tm".data ∈
      filterChain ["a\tb\tc\td\te\tf\tg\th\ti\tj\tk\tl\tm".data] :=
  ⟨(chain_filter_amended ["#comment".data] "#comment".data).1
      (Or.inr (Or.inl (by decide))),
   (chain_filter_amended ["a\tb\tc\td\te\tf\tg\th\ti\tj\tk\tl\tm".data]
      "a\tb\tc\td\te\tf\tg\th\ti\tj\tk\tl\tm".data).2
      (by decide) (by decide) (by decide) (by decide)⟩

/-! ## `create_hg38_bed` (`2_paf_liftover.py` lines 73-92)

`pandas.read_csv(..., sep='\t')` yields a dataframe, modelled as a
header (list of column names) plus rows of cells.  Cells are kept as
their source text; for the integer-valued `Start`/`End` columns pandas
round-trips canonical integer text unchanged through `to_csv`. -/

/-- A parsed tab-separated loci table (a pandas dataframe). -/
structure Table where
  header : List String
  rows : List (List String)
  deriving Repr, DecidableEq

/-- Observable outcome of `create_hg38_bed`: the returned value (the
output path, or `None`), the lines written to the output file (if
any), and whether an error message was printed. -/
structure BedResult where
  ret : Option String
  written : Option (List String)
  printedError : Bool
  deriving Repr, DecidableEq

/-- `create_hg38_bed(imprinted_loci_tsv, output_bed)`.  The input is
`none` when the TSV file is missing (`pd.read_csv` raises
`FileNotFoundError`, caught: print and return `None`).  Column
selection `df[['Chromosome', 'Start', 'End']]` raises `KeyError` when
any of the three columns is absent (caught: print and return `None`).
Otherwise the chromosome cell is prefixed with `'chr'` and the three
columns are written tab-separated with `header=False`, returning
`output_bed`. -/
def create_hg38_bed (tsvFile : Option Table) (output_bed : String) : BedResult :=
  match tsvFile with
  | none => ⟨none, none, true⟩
  | some df =>
    match df.header.findIdx? (· == "Chromosome"),
        df.header.findIdx? (· == "Start"),
        df.header.findIdx? (· == "End") with
    | some ci, some si, some ei =>
      { ret := some output_bed
        written := some (df.rows.map (fun r =>
          "chr" ++ r.getD ci "" ++ "\t" ++ r.getD si "" ++ "\t" ++ r.getD ei ""))
        printedError := false }
    | _, _, _ => ⟨none, none, true⟩

/-- C3: for a loci table whose single row has Chromosome `"1"`,
Start `1000`, End `2000`, `create_hg38_bed` writes exactly the one
line `chr1<TAB>1000<TAB>2000` (chromosome prefixed with the literal
token `chr`) and no header line, and returns the output path. -/
theorem create_hg38_bed_row :
    create_hg38_bed
        (some ⟨["Chromosome", "Start", "End"], [["1", "1000", "2000"]]⟩)
        "hg38_imprinted_loci.bed" =
      { ret := some "hg38_imprinted_loci.bed"
        written := some ["chr1\t1000\t2000"]
        printedError := false } := by
  rfl

theorem findIdx?_beq_eq_none_of_not_mem (l : List String) (s : String)
    (h : s ∉ l) : l.findIdx? (· == s) = none := by
  rw [List.findIdx?_eq_none_iff]
  intro x hx
  simp only [beq_eq_false_iff_ne, ne_eq]
  rintro rfl
  exact h hx

theorem findIdx?_beq_isSome_of_mem (l : List String) (s : String)
    (h : s ∈ l) : (l.findIdx? (· == s)).isSome := by
  rw [List.findIdx?_isSome]
  exact List.any_eq_true.mpr ⟨s, h, by simp⟩

/-- C8: `create_hg38_bed` returns `None`, prints an error and writes
nothing whenever the loci table file is missing or one of the columns
`Chromosome`, `Start`, `End` is absent; on success it returns exactly
the output path it was given. -/
theorem create_hg38_bed_errors (df : Table) (output_bed : String) :
    (create_hg38_bed none output_bed = ⟨none, none, true⟩) ∧
    (("Chromosome" ∉ df.header ∨ "Start" ∉ df.header ∨ "End" ∉ df.header) →
      create_hg38_bed (some df) output_bed = ⟨none, none, true⟩) ∧
    ("Chromosome" ∈ df.header → "Start" ∈ df.header → "End" ∈ df.header →
      (create_hg38_bed (some df) output_bed).ret = some output_bed ∧
        (create_hg38_bed (some df) output_bed).printedError = false) := by
  refine ⟨rfl, ?_, ?_⟩
  · intro h
    simp only [create_hg38_bed]
    rcases h with h | h | h <;> rw [findIdx?_beq_eq_none_of_not_mem _ _ h]
    · cases df.header.findIdx? (· == "Chromosome") <;> rfl
    · cases df.header.findIdx? (· == "Chromosome") <;>
        cases df.header.findIdx? (· == "Start") <;> rfl
  · intro h1 h2 h3
    simp only [create_hg38_bed]
    obtain ⟨ci, hci⟩ := Option.isSome_iff_exists.mp (findIdx?_beq_isSome_of_mem _ _ h1)
    obtain ⟨si, hsi⟩ := Option.isSome_iff_exists.mp (findIdx?_beq_isSome_of_mem _ _ h2)
    obtain ⟨ei, hei⟩ := Option.isSome_iff_exists.mp (findIdx?_beq_isSome_of_mem _ _ h3)
    rw [hci, hsi, hei]
    exact ⟨rfl, rfl⟩

/-- Witness for C8 at concrete tables: a table missing the `Start`
column yields the error result, and a well-formed table returns the
given output path without printing an error. -/
theorem create_hg38_bed_errors_witness :
    create_hg38_bed (some ⟨["Chromosome", "End"], []⟩) "out.bed" =
        ⟨none, none, true⟩ ∧
      (create_hg38_bed (some ⟨["Chromosome", "Start", "End"], []⟩) "out.bed").ret =
          some "out.bed" :=
  ⟨(create_hg38_bed_errors ⟨["Chromosome", "End"], []⟩ "out.bed").2.1
      (Or.inr (Or.inl (by decide))),
   ((create_hg38_bed_errors ⟨["Chromosome", "Start", "End"], []⟩ "out.bed").2.2
      (by decide) (by decide) (by decide)).1⟩

/-- C2: the chain-record filter of `run_paf2liftover` is idempotent:
applying the line filter to its own output yields the same output. -/
theorem chain_filter_idempotent (file : List (List Char)) :
    filterChain (filterChain file) = filterChain file := by
  simp [filterChain, List.filter_filter]

/-! ## External subprocess invocations

A `subprocess.run(..., check=True)` call is observed by these scripts
in exactly three ways: it returns normally, raises
`subprocess.CalledProcessError` (non-zero exit), or raises
`FileNotFoundError` (binary not on the PATH). -/

/-- Outcome of one external-process invocation. -/
inductive ProcOutcome where
  | success
  | nonzeroExit
  | missingBinary
  deriving DecidableEq, Repr

/-- `subprocess.run(command, check=True)`: raises on a non-zero exit
or a missing binary, otherwise returns. -/
def subprocess_run (o : ProcOutcome) : Except PyError Unit :=
  match o with
  | .success => .ok ()
  | .nonzeroExit => .error .calledProcessError
  | .missingBinary => .error .fileNotFoundError

/-- Messages the scripts print, in order of occurrence. -/
inductive Event where
  | printRunningMinimap2
  | printPafSuccess
  | printMinimap2Error
  | printMinimap2NotFound
  | printRunningConverter
  | printChainSuccess
  | printConverterError
  | printConverterStdout
  | printConverterStderr
  | printConverterNotFound
  | printRunningLiftOver
  | printLiftOverSuccess
  | printUnmappedSaved
  | printNoUnmapped
  | printLiftOverError
  | printLiftOverNotFound
  | printSkipLiftOver
  deriving DecidableEq, Repr

/-! ## Program 1: `1_run_batch_alignment.py` -/

/-- `run_minimap2` (`1_run_batch_alignment.py` lines 5-29): the whole
body is a `try` whose `except` clauses catch exactly
`subprocess.CalledProcessError` and `FileNotFoundError`, printing a
message and returning; any other exception would propagate (the
`.error e` branch). -/
def run_minimap2 (o : ProcOutcome) : Except PyError (List Event) :=
  match subprocess_run o with
  | .ok () => .ok [.printRunningMinimap2, .printPafSuccess]
  | .error .calledProcessError => .ok [.printRunningMinimap2, .printMinimap2Error]
  | .error .fileNotFoundError => .ok [.printRunningMinimap2, .printMinimap2NotFound]
  | .error e => .error e

/-- The extension test of the loop in `process_directories`
(line 48): `filename.endswith(".fasta") or filename.endswith(".fa")
or filename.endswith(".fna")`. -/
def isSeqFile (filename : String) : Bool :=
  filename.endsWith ".fasta" || filename.endsWith ".fa" || filename.endsWith ".fna"

/-- The `for filename in os.listdir(input_dir)` loop of
`process_directories` (lines 47-54).  `outcome` gives each file's
aligner-invocation result.  Returns the files for which `run_minimap2`
was invoked, in listing order; an uncaught exception from an item
aborts the rest of the loop (the `.error` propagation). -/
def alignLoop (outcome : String → ProcOutcome) :
    List String → Except PyError (List String)
  | [] => .ok []
  | f :: rest =>
    if isSeqFile f then
      match run_minimap2 (outcome f) with
      | .error e => .error e
      | .ok _ =>
        match alignLoop outcome rest with
        | .error e => .error e
        | .ok invoked => .ok (f :: invoked)
    else
      alignLoop outcome rest

/-- `process_directories` (lines 31-54): `dirs` maps a directory path
to its listing (or `none` when `os.path.isdir` is false, in which case
the function prints an error and returns before the loop). -/
def process_directories (dirs : String → Option (List String))
    (input_dir : String) (outcome : String → ProcOutcome) :
    Except PyError (List String) :=
  match dirs input_dir with
  | none => .ok []
  | some files => alignLoop outcome files

theorem run_minimap2_never_raises (o : ProcOutcome) :
    ∃ ev, run_minimap2 o = .ok ev := by
  cases o <;> exact ⟨_, rfl⟩

theorem alignLoop_eq_ok_filter (files : List String)
    (oc : String → ProcOutcome) :
    alignLoop oc files = .ok (files.filter isSeqFile) := by
  induction files with
  | nil => rfl
  | cons f rest ih =>
    by_cases h : isSeqFile f
    · obtain ⟨ev, hev⟩ := run_minimap2_never_raises (oc f)
      simp [alignLoop, h, hev, ih]
    · simp [alignLoop, h, ih]

/-- C4: every file in the directory ending in `.fasta`, `.fa` or
`.fna` receives exactly one attempted aligner invocation, in listing
order, whatever the per-file outcomes are (so one file's non-zero exit
or missing binary never prevents or alters another file's invocation),
and files with other suffixes receive none. -/
theorem alignment_invocations (files : List String)
    (outcome outcome' : String → ProcOutcome) :
    alignLoop outcome files = .ok (files.filter isSeqFile) ∧
    alignLoop outcome files = alignLoop outcome' files ∧
    (∀ f : String, (files.filter isSeqFile).count f =
      if isSeqFile f then files.count f else 0) := by
  refine ⟨alignLoop_eq_ok_filter files outcome,
    (alignLoop_eq_ok_filter files outcome).trans
      (alignLoop_eq_ok_filter files outcome').symm, ?_⟩
  intro f
  by_cases h : isSeqFile f
  · rw [if_pos h, List.count_filter h]
  · rw [if_neg h, List.count_eq_zero]
    intro hmem
    exact h ((List.mem_filter.mp hmem).2)

/-! ## `run_liftover` (`2_paf_liftover.py` lines 43-71) -/

/-- State of the unmapped-output file after the `liftOver` subprocess:
`none` when the file does not exist, `some size` its byte size
otherwise (`os.stat(...).st_size`). -/
def unmappedNonempty (unmapped : Option Nat) : Bool :=
  match unmapped with
  | none => false
  | some size => decide (0 < size)

/-- `run_liftover`: invoke `liftOver`; on success print the success
message and then report unmapped intervals by testing
`os.path.exists(unmapped_bed) and os.stat(unmapped_bed).st_size > 0`
(lines 63-66); `CalledProcessError` and `FileNotFoundError` are caught
and printed. -/
def run_liftover (o : ProcOutcome) (unmapped : Option Nat) :
    Except PyError (List Event) :=
  match subprocess_run o with
  | .ok () =>
    .ok ([.printRunningLiftOver, .printLiftOverSuccess] ++
      (if unmappedNonempty unmapped then [.printUnmappedSaved]
       else [.printNoUnmapped]))
  | .error .calledProcessError => .ok [.printRunningLiftOver, .printLiftOverError]
  | .error .fileNotFoundError => .ok [.printRunningLiftOver, .printLiftOverNotFound]
  | .error e => .error e

/-- C6: after a successful `liftOver` invocation, `run_liftover`
reports that unmapped intervals exist exactly when the unmapped-output
file exists with size greater than zero; when the file is absent or
has zero size it reports that no intervals were unmapped. -/
theorem liftover_unmapped_report (unmapped : Option Nat) :
    ∃ ev, run_liftover .success unmapped = .ok ev ∧
      (Event.printUnmappedSaved ∈ ev ↔
        ∃ size, unmapped = some size ∧ 0 < size) ∧
      (Event.printNoUnmapped ∈ ev ↔
        ¬∃ size, unmapped = some size ∧ 0 < size) := by
  have hsplit : ∀ size : Nat, size = 0 ∨ ¬size = 0 := fun size =>
    (Nat.eq_zero_or_pos size).imp id (fun h => Nat.pos_iff_ne_zero.mp h)
  refine ⟨_, rfl, ?_, ?_⟩
  · rcases unmapped with _ | size
    · simp [unmappedNonempty]
    · rcases hsplit size with h | h <;>
        simp [unmappedNonempty, Nat.pos_iff_ne_zero, h]
  · rcases unmapped with _ | size
    · simp [unmappedNonempty]
    · rcases hsplit size with h | h <;>
        simp [unmappedNonempty, Nat.pos_iff_ne_zero, h]

/-! ## The filesystem and `run_paf2liftover`
(`2_paf_liftover.py` lines 6-41) -/

/-- The filesystem: a map from path to file content (as lines), with
`none` for an absent file. -/
def FS := String → Option (List (List Char))

/-- Writing (or, with `none`, removing) a file. -/
def setFile (fs : FS) (path : String) (v : Option (List (List Char))) : FS :=
  fun q => if q = path then v else fs q

/-- Outcome of the `paf2liftover.py` subprocess.  On success it has
written `tmpLines` to the `.tmp` path; on a non-zero exit it may have
left arbitrary partial content there (`tmpLeft`); when the binary is
missing nothing ran and nothing was written. -/
inductive ConvOutcome where
  | success (tmpLines : List (List Char))
  | nonzeroExit (tmpLeft : Option (List (List Char)))
  | missingBinary

/-- `run_paf2liftover(paf_file, chain_file)` (lines 6-41).  On the
success path: the converter writes `chain_file + ".tmp"`; the filtering
loop (lines 25-30) writes `filterChain` of those lines to
`chain_file`; `os.remove` then deletes the temporary file (line 32) and
the success message is printed.  A `CalledProcessError` is caught at
line 35 (printing the error and its captured stdout and stderr), a
`FileNotFoundError` at line 39 (printing the not-found message); in
both cases the function returns without having opened or written
`chain_file`. -/
def run_paf2liftover (fs : FS) (o : ConvOutcome) (chain_file : String) :
    FS × List Event :=
  match o with
  | .success tmpLines =>
    let fs1 := setFile fs (chain_file ++ ".tmp") (some tmpLines)
    let fs2 := setFile fs1 chain_file (some (filterChain tmpLines))
    let fs3 := setFile fs2 (chain_file ++ ".tmp") none
    (fs3, [.printRunningConverter, .printChainSuccess])
  | .nonzeroExit tmpLeft =>
    (match tmpLeft with
     | none => fs
     | some leftoverTmp => setFile fs (chain_file ++ ".tmp") (some leftoverTmp),
     [.printRunningConverter, .printConverterError,
      .printConverterStdout, .printConverterStderr])
  | .missingBinary =>
    (fs, [.printRunningConverter, .printConverterNotFound])

/-- One iteration of the loop body of `process_paf_directory`
(lines 104-111): run the converter, then `if os.path.exists(chain_file)`
run `liftOver`, else print the skip message. -/
def process_paf_item (fs : FS) (conv : ConvOutcome) (lift : ProcOutcome)
    (unmapped : Option Nat) (chain_file : String) :
    Except PyError (FS × List Event) :=
  let r := run_paf2liftover fs conv chain_file
  if (r.1 chain_file).isSome then
    match run_liftover lift unmapped with
    | .error e => .error e
    | .ok ev2 => .ok (r.1, r.2 ++ ev2)
  else
    .ok (r.1, r.2 ++ [.printSkipLiftOver])

theorem ne_append_tmp (s : String) : s ≠ s ++ ".tmp" := by
  intro h
  have hlen := congrArg String.length h
  rw [String.length_append] at hlen
  simp at hlen
  exact absurd hlen (by decide)

/-- C9: whenever the filtering pass of `run_paf2liftover` completes
(the success path), the temporary chain-conversion file
`chain_file + ".tmp"` is removed before the function returns, so no
successful run leaves the temporary file on disk. -/
theorem tmp_file_removed_on_success (fs : FS) (tmpLines : List (List Char))
    (chain_file : String) :
    (run_paf2liftover fs (.success tmpLines) chain_file).1
      (chain_file ++ ".tmp") = none := by
  simp [run_paf2liftover, setFile]

/-- C7: if the converter subprocess exits non-zero or its binary is
missing, `run_paf2liftover` prints the error (with the captured stdout
and stderr in the non-zero-exit case) and creates no final chain file;
the per-directory loop's existence check then skips the `liftOver`
invocation, appending only the skip message. -/
theorem converter_failure_no_chain (fs : FS) (lift : ProcOutcome)
    (unmapped : Option Nat) (chain_file : String)
    (tmpLeft : Option (List (List Char)))
    (h : fs chain_file = none) :
    ((run_paf2liftover fs (.nonzeroExit tmpLeft) chain_file).1 chain_file = none ∧
      (run_paf2liftover fs (.nonzeroExit tmpLeft) chain_file).2 =
        [.printRunningConverter, .printConverterError,
         .printConverterStdout, .printConverterStderr] ∧
      process_paf_item fs (.nonzeroExit tmpLeft) lift unmapped chain_file =
        .ok ((run_paf2liftover fs (.nonzeroExit tmpLeft) chain_file).1,
          [.printRunningConverter, .printConverterError,
           .printConverterStdout, .printConverterStderr, .printSkipLiftOver])) ∧
    ((run_paf2liftover fs .missingBinary chain_file).1 chain_file = none ∧
      (run_paf2liftover fs .missingBinary chain_file).2 =
        [.printRunningConverter, .printConverterNotFound] ∧
      process_paf_item fs .missingBinary lift unmapped chain_file =
        .ok ((run_paf2liftover fs .missingBinary chain_file).1,
          [.printRunningConverter, .printConverterNotFound,
           .printSkipLiftOver])) := by
  have hchain : (run_paf2liftover fs (.nonzeroExit tmpLeft) chain_file).1
      chain_file = none := by
    rcases tmpLeft with _ | leftoverTmp
    · exact h
    · simp only [run_paf2liftover, setFile]
      rw [if_neg (ne_append_tmp chain_file)]
      exact h
  refine ⟨⟨hchain, rfl, ?_⟩, ⟨h, rfl, ?_⟩⟩
  · simp only [process_paf_item, hchain, Option.isSome_none,
      Bool.false_eq_true, if_false]
    rfl
  · simp only [process_paf_item, run_paf2liftover, h]
    rfl

/-- Witness for C7 at a concrete state: on an initially empty
filesystem, a non-zero converter exit leaves no chain file. -/
theorem converter_failure_no_chain_witness :
    (run_paf2liftover (fun _ => none) (.nonzeroExit none) "c.chain").1
      "c.chain" = none :=
  ((converter_failure_no_chain (fun _ => none) .success none "c.chain" none
    rfl).1).1

/-! ## `process_paf_directory` and `main`
(`2_paf_liftover.py` lines 94-136) -/

/-- CPython `str.replace(old, new)` for a non-empty `old`, on
character lists: scan left to right, replacing every non-overlapping
occurrence of `old` and continuing after the replaced text.  The
`fuel` argument only drives the recursion; every step consumes at
least one input character, so `fuel = input length` (as used in
`pyReplace`) never runs out. -/
def pyReplaceFuel (pat repl : List Char) : Nat → List Char → List Char
  | _, [] => []
  | 0, l => l
  | fuel + 1, c :: rest =>
    if pat ≠ [] ∧ pat.isPrefixOf (c :: rest) then
      repl ++ pyReplaceFuel pat repl fuel ((c :: rest).drop pat.length)
    else
      c :: pyReplaceFuel pat repl fuel rest

/-- `s.replace(old, new)` for a non-empty `old`. -/
def pyReplace (s old new : String) : String :=
  ⟨pyReplaceFuel old.data new.data s.data.length s.data⟩

/-- The assembly name derived by `process_paf_directory` (line 98):
`filename.replace(".paf", "")`. -/
def assembly_name (filename : String) : String :=
  pyReplace filename ".paf" ""

/-- `os.path.join(dir, name)` for a directory path without a trailing
separator and a relative `name`, as produced by the scripts. -/
def pathJoin (dir name : String) : String := dir ++ "/" ++ name

/-- C10: the derived assembly name is the PAF filename with every
occurrence of the substring `.paf` removed — not only the trailing
extension: `a.paf.paf` yields `a` (not `a.paf`), and `x.paf_y.paf`
yields `x_y`; the chain path is built from that name. -/
theorem assembly_name_removes_every_occurrence :
    assembly_name "a.paf.paf" = "a" ∧
    assembly_name "x.paf_y.paf" = "x_y" ∧
    assembly_name "a.paf.paf" ≠ "a.paf" ∧
    assembly_name "sample1.paf" = "sample1" ∧
    pathJoin "out" (assembly_name "a.paf.paf" ++ "_to_hg38.chain") =
      "out/a_to_hg38.chain" := by
  refine ⟨by decide, by decide, by decide, by decide, ?_⟩
  have h : assembly_name "a.paf.paf" = "a" := by decide
  rw [h]
  rfl

/-- The `for filename in os.listdir(paf_dir)` loop of
`process_paf_directory` (lines 96-111): for each `.paf` file, derive
the chain path from the assembly name and run the converter-then-
liftover item.  `conv`, `lift` and `unmappedState` give each file's
converter outcome, liftOver outcome, and resulting unmapped-file
state; an uncaught exception from an item aborts the rest of the
loop. -/
def pafLoop (output_bed_dir : String) (conv : String → ConvOutcome)
    (lift : String → ProcOutcome) (unmappedState : String → Option Nat) :
    List String → FS → Except PyError (FS × List Event)
  | [], fs => .ok (fs, [])
  | f :: rest, fs =>
    if f.endsWith ".paf" then
      match process_paf_item fs (conv f) (lift f) (unmappedState f)
          (pathJoin output_bed_dir (assembly_name f ++ "_to_hg38.chain")) with
      | .error e => .error e
      | .ok (fs1, ev1) =>
        match pafLoop output_bed_dir conv lift unmappedState rest fs1 with
        | .error e => .error e
        | .ok (fs2, ev2) => .ok (fs2, ev1 ++ ev2)
    else
      pafLoop output_bed_dir conv lift unmappedState rest fs

/-- `process_paf_directory` (lines 94-111): `os.listdir(paf_dir)` is
called with no surrounding `try` and no existence check, so when the
directory is absent the `FileNotFoundError` it raises propagates
uncaught. -/
def process_paf_directory (dirs : String → Option (List String))
    (paf_dir output_bed_dir : String) (conv : String → ConvOutcome)
    (lift : String → ProcOutcome) (unmappedState : String → Option Nat)
    (fs : FS) : Except PyError (FS × List Event) :=
  match dirs paf_dir with
  | none => .error .fileNotFoundError
  | some files => pafLoop output_bed_dir conv lift unmappedState files fs

/-- `main` of `2_paf_liftover.py` (lines 113-136), after argument
parsing and `os.makedirs`: build the hg38 BED file, return early when
`create_hg38_bed` returned `None`, otherwise process the PAF
directory (any exception from it propagates and terminates the
program). -/
def liftover_main (dirs : String → Option (List String))
    (tsvFile : Option Table) (paf_dir output_bed_dir : String)
    (conv : String → ConvOutcome) (lift : String → ProcOutcome)
    (unmappedState : String → Option Nat) (fs : FS) :
    Except PyError (FS × List Event) :=
  match (create_hg38_bed tsvFile "hg38_imprinted_loci.bed").ret with
  | none => .ok (fs, [])
  | some _ =>
    process_paf_directory dirs paf_dir output_bed_dir conv lift
      unmappedState fs

theorem run_liftover_never_raises (o : ProcOutcome) (unmapped : Option Nat) :
    ∃ ev, run_liftover o unmapped = .ok ev := by
  cases o <;> exact ⟨_, rfl⟩

theorem process_paf_item_never_raises (fs : FS) (conv : ConvOutcome)
    (lift : ProcOutcome) (unmapped : Option Nat) (chain_file : String) :
    ∃ r, process_paf_item fs conv lift unmapped chain_file = .ok r := by
  obtain ⟨ev, hev⟩ := run_liftover_never_raises lift unmapped
  simp only [process_paf_item, hev]
  split <;> exact ⟨_, rfl⟩

theorem pafLoop_never_raises (output_bed_dir : String)
    (conv : String → ConvOutcome) (lift : String → ProcOutcome)
    (unmappedState : String → Option Nat) (files : List String) (fs : FS) :
    ∃ r, pafLoop output_bed_dir conv lift unmappedState files fs = .ok r := by
  induction files generalizing fs with
  | nil => exact ⟨_, rfl⟩
  | cons f rest ih =>
    by_cases h : f.endsWith ".paf"
    · obtain ⟨⟨fs1, ev1⟩, h1⟩ := process_paf_item_never_raises fs (conv f)
        (lift f) (unmappedState f)
        (pathJoin output_bed_dir (assembly_name f ++ "_to_hg38.chain"))
      obtain ⟨⟨fs2, ev2⟩, h2⟩ := ih fs1
      refine ⟨(fs2, ev1 ++ ev2), ?_⟩
      simp [pafLoop, h, h1, h2]
    · obtain ⟨r, hr⟩ := ih fs
      refine ⟨r, ?_⟩
      simp [pafLoop, h, hr]

/-- C5, counterexample: with a valid loci table but a non-existent
`paf_dir`, program 2 terminates with an uncaught `FileNotFoundError`
(raised by `os.listdir`, which has no surrounding `try` and no
existence check), contradicting the claim that no exception other than
the two precondition early returns terminates a run. -/
theorem whole_run_exception_counterexample :
    liftover_main (fun _ => none)
      (some ⟨["Chromosome", "Start", "End"], [["1", "1000", "2000"]]⟩)
      "pafs" "out" (fun _ => .missingBinary) (fun _ => .missingBinary)
      (fun _ => none) (fun _ => none) =
      .error .fileNotFoundError := rfl

/-- C5 (amended): program 1 never terminates with an uncaught
exception (its absent-input-directory early return aborts before the
loop, and both aligner failure modes are caught per item); program 2
aborts via early return when the loci table is absent or
column-deficient; and when `paf_dir` exists program 2 never terminates
with an uncaught exception — but when `paf_dir` does not exist and the
loci table is valid, program 2 terminates with an uncaught
`FileNotFoundError` from `os.listdir`. -/
theorem whole_run_exception_amended
    (dirs1 : String → Option (List String)) (input_dir : String)
    (outcome1 : String → ProcOutcome)
    (dirs : String → Option (List String)) (tsvFile : Option Table)
    (paf_dir output_bed_dir : String) (conv : String → ConvOutcome)
    (lift : String → ProcOutcome) (unmappedState : String → Option Nat)
    (fs : FS) :
    (∃ invoked, process_directories dirs1 input_dir outcome1 = .ok invoked) ∧
    ((create_hg38_bed tsvFile "hg38_imprinted_loci.bed").ret = none →
      liftover_main dirs tsvFile paf_dir output_bed_dir conv lift
        unmappedState fs = .ok (fs, [])) ∧
    (∀ files, dirs paf_dir = some files →
      ∃ r, liftover_main dirs tsvFile paf_dir output_bed_dir conv lift
        unmappedState fs = .ok r) ∧
    (dirs paf_dir = none →
      ∀ bed, (create_hg38_bed tsvFile "hg38_imprinted_loci.bed").ret = some bed →
      liftover_main dirs tsvFile paf_dir output_bed_dir conv lift
        unmappedState fs = .error .fileNotFoundError) := by
  refine ⟨?_, ?_, ?_, ?_⟩
  · unfold process_directories
    cases dirs1 input_dir with
    | none => exact ⟨_, rfl⟩
    | some files => exact ⟨_, alignLoop_eq_ok_filter files outcome1⟩
  · intro h
    unfold liftover_main
    rw [h]
  · intro files hfiles
    unfold liftover_main
    cases hret : (create_hg38_bed tsvFile "hg38_imprinted_loci.bed").ret with
    | none => exact ⟨_, rfl⟩
    | some bed =>
      unfold process_paf_directory
      rw [hfiles]
      exact pafLoop_never_raises output_bed_dir conv lift unmappedState files fs
  · intro hdir bed hbed
    unfold liftover_main
    rw [hbed]
    unfold process_paf_directory
    rw [hdir]

/-- Witness for the amended C5 theorem at concrete inputs: a missing
loci table makes program 2 return early; with a valid table and an
existing (singleton) PAF directory program 2 completes without an
exception; with the same table but an absent directory it raises; and
program 1 completes on an empty directory listing. -/
theorem whole_run_exception_amended_witness :
    (∃ invoked, process_directories (fun _ => some []) "in"
      (fun _ => .success) = .ok invoked) ∧
    liftover_main (fun _ => some ["a.paf"]) none "pafs" "out"
      (fun _ => .missingBinary) (fun _ => .success) (fun _ => none)
      (fun _ => none) = .ok ((fun _ => none), []) ∧
    (∃ r, liftover_main (fun _ => some ["a.paf"])
      (some ⟨["Chromosome", "Start", "End"], [["1", "1000", "2000"]]⟩)
      "pafs" "out" (fun _ => .missingBinary) (fun _ => .success)
      (fun _ => none) (fun _ => none) = .ok r) ∧
    liftover_main (fun _ => none)
      (some ⟨["Chromosome", "Start", "End"], [["1", "1000", "2000"]]⟩)
      "pafs2" "out" (fun _ => .missingBinary) (fun _ => .success)
      (fun _ => none) (fun _ => none) = .error .fileNotFoundError :=
  ⟨(whole_run_exception_amended (fun _ => some []) "in" (fun _ => .success)
      (fun _ => some ["a.paf"]) none "pafs" "out" (fun _ => .missingBinary)
      (fun _ => .success) (fun _ => none) (fun _ => none)).1,
   (whole_run_exception_amended (fun _ => some []) "in" (fun _ => .success)
      (fun _ => some ["a.paf"]) none "pafs" "out" (fun _ => .missingBinary)
      (fun _ => .success) (fun _ => none) (fun _ => none)).2.1 rfl,
   (whole_run_exception_amended (fun _ => some []) "in" (fun _ => .success)
      (fun _ => some ["a.paf"])
      (some ⟨["Chromosome", "Start", "End"], [["1", "1000", "2000"]]⟩)
      "pafs" "out" (fun _ => .missingBinary) (fun _ => .success)
      (fun _ => none) (fun _ => none)).2.2.1 ["a.paf"] rfl,
   (whole_run_exception_amended (fun _ => some []) "in" (fun _ => .success)
      (fun _ => none)
      (some ⟨["Chromosome", "Start", "End"], [["1", "1000", "2000"]]⟩)
      "pafs2" "out" (fun _ => .missingBinary) (fun _ => .success)
      (fun _ => none) (fun _ => none)).2.2.2 rfl "hg38_imprinted_loci.bed"
      rfl⟩

end IpscT2T
